import Mathlib

/-!
Verification of the environment-config loader (`src/config.ts`).

The repository declares a `Config` class whose constructor takes an optional
environment mapping (defaulting to the real process environment), reads three
required keys through the `env-var` accessor chain
(`env.get(k).required().asString() / .asBool() / .asIntPositive()`), and then
calls `Object.freeze(this)`.  In the compiled JavaScript the class-field
initializers run before the constructor body, so all three fields are computed
first and the object is frozen afterwards; a later assignment to any field of a
frozen object raises `Cannot assign to read only property ...`.

The `env-var` library itself is a third-party dependency whose sources are not
part of this repository, so its coercions are modelled from the spec:
a required key that is absent fails construction with an error naming the key;
the boolean coercion accepts only the literals "true" and "false"; the
positive-integer coercion parses a base-10 integer and fails on non-numeric
input and on any non-positive value.
-/

deriving instance DecidableEq for Except

/-- An environment mapping: string keys to string values, absent keys `none`. -/
def EnvMap : Type := String → Option String

/-- Modelled from the spec: `env-var`'s `required()` check (the library is not
part of this repository's sources).  A required key that is absent from the
mapping fails with a descriptive error naming the missing key. -/
def requiredVal (env : EnvMap) (k : String) : Except String String :=
  match env k with
  | none => Except.error (k ++ " is a required variable, but it was not set")
  | some v => Except.ok v

/-- Modelled from the spec: `env-var`'s `asString()` passes the raw value
through unchanged. -/
def asString (raw : String) : Except String String :=
  Except.ok raw

/-- Modelled from the spec: `env-var`'s `asBool()` accepts only the closed set
of literals `"true"` and `"false"`; any other value is a validation failure. -/
def asBool (raw : String) : Except String Bool :=
  if raw = "true" then Except.ok true
  else if raw = "false" then Except.ok false
  else Except.error ("value " ++ raw ++ " is not a valid boolean")

/-- The numeric value of a decimal digit character, `none` for any other
character. -/
def charDigit (c : Char) : Option Nat :=
  if c = '0' then some 0 else if c = '1' then some 1
  else if c = '2' then some 2 else if c = '3' then some 3
  else if c = '4' then some 4 else if c = '5' then some 5
  else if c = '6' then some 6 else if c = '7' then some 7
  else if c = '8' then some 8 else if c = '9' then some 9
  else none

/-- Reads a run of decimal digits into an accumulator; fails on the first
non-digit character. -/
def digitsToNat : List Char → Nat → Option Nat
  | [], acc => some acc
  | c :: cs, acc =>
    match charDigit c with
    | none => none
    | some d => digitsToNat cs (acc * 10 + d)

/-- Base-10 integer parse of a raw string: an optional leading minus sign
followed by decimal digits only; any other shape is not purely numeric. -/
def parseBase10 (s : String) : Option Int :=
  match s.data with
  | [] => none
  | '-' :: rest =>
    match rest with
    | [] => none
    | _ => (digitsToNat rest 0).map (fun n => -(n : Int))
  | l => (digitsToNat l 0).map (fun n => (n : Int))

/-- Modelled from the spec: `env-var`'s `asIntPositive()` parses the raw string
as a base-10 integer and fails if the string is not purely numeric or the
parsed value is not strictly positive. -/
def asIntPositive (raw : String) : Except String Int :=
  match parseBase10 raw with
  | none => Except.error ("value " ++ raw ++ " is not a valid integer")
  | some n =>
    if 0 < n then Except.ok n
    else Except.error ("value " ++ raw ++ " is not a positive integer")

/-- The `Config` object of `src/config.ts`: three public fields plus the
frozen flag that `Object.freeze(this)` sets at the end of construction. -/
structure Config where
  HOME : String
  DESTROY_DATABASE : Bool
  COUNT : Int
  frozen : Bool
deriving DecidableEq, Repr

/-- Construction of `Config` from a given environment mapping
(`src/config.ts` lines 10-14 compute the fields in declaration order, then the
constructor body freezes the object).  Any failed lookup or coercion aborts
construction with that error. -/
def mkConfig (processEnv : EnvMap) : Except String Config :=
  match requiredVal processEnv "HOME" with
  | Except.error e => Except.error e
  | Except.ok rawHome =>
    match asString rawHome with
    | Except.error e => Except.error e
    | Except.ok home =>
      match requiredVal processEnv "DESTROY_DATABASE" with
      | Except.error e => Except.error e
      | Except.ok rawDd =>
        match asBool rawDd with
        | Except.error e => Except.error e
        | Except.ok dd =>
          match requiredVal processEnv "COUNT" with
          | Except.error e => Except.error e
          | Except.ok rawCount =>
            match asIntPositive rawCount with
            | Except.error e => Except.error e
            | Except.ok count =>
              Except.ok { HOME := home, DESTROY_DATABASE := dd,
                          COUNT := count, frozen := true }

/-- The public constructor `new Config(envOverride?)`: when the override is
absent the real process environment is used (the default parameter
`private processEnv = process.env`), otherwise exactly the supplied mapping. -/
def newConfig (realEnv : EnvMap) (envOverride : Option EnvMap) :
    Except String Config :=
  mkConfig (envOverride.getD realEnv)

/-- Assignment to the `HOME` field: on a frozen object it raises instead of
writing (JavaScript strict-mode semantics for `Object.freeze`). -/
def setHOME (c : Config) (v : String) : Except String Config :=
  if c.frozen then
    Except.error "Cannot assign to read only property HOME of object"
  else Except.ok { c with HOME := v }

/-- Assignment to the `DESTROY_DATABASE` field: raises on a frozen object. -/
def setDESTROY_DATABASE (c : Config) (v : Bool) : Except String Config :=
  if c.frozen then
    Except.error "Cannot assign to read only property DESTROY_DATABASE of object"
  else Except.ok { c with DESTROY_DATABASE := v }

/-- Assignment to the `COUNT` field: raises on a frozen object. -/
def setCOUNT (c : Config) (v : Int) : Except String Config :=
  if c.frozen then
    Except.error "Cannot assign to read only property COUNT of object"
  else Except.ok { c with COUNT := v }

/-- The object observed after an attempted assignment: when the assignment
raises, the original object is what remains. -/
def afterSet (c : Config) (act : Config → Except String Config) : Config :=
  match act c with
  | Except.ok c' => c'
  | Except.error _ => c

/-- The valid test mapping of the accompanying test suite. -/
def demoEnv : EnvMap := fun k =>
  if k = "HOME" then some "/"
  else if k = "DESTROY_DATABASE" then some "true"
  else if k = "COUNT" then some "1"
  else none

/-- The test mapping with `DESTROY_DATABASE` replaced by an arbitrary raw
string. -/
def envWithDd (s : String) : EnvMap := fun k =>
  if k = "HOME" then some "/"
  else if k = "DESTROY_DATABASE" then some s
  else if k = "COUNT" then some "1"
  else none

/-- The test mapping with `COUNT` replaced by an arbitrary raw string. -/
def envWithCount (s : String) : EnvMap := fun k =>
  if k = "HOME" then some "/"
  else if k = "DESTROY_DATABASE" then some "true"
  else if k = "COUNT" then some s
  else none

/-- The empty environment mapping. -/
def emptyEnv : EnvMap := fun _ => none

/-- The `Config` object the valid test mapping produces. -/
def demoConfig : Config :=
  { HOME := "/", DESTROY_DATABASE := true, COUNT := 1, frozen := true }

/-- Two constructions performed one after the other, each from its own
mapping. -/
def buildTwo (e1 e2 : EnvMap) : Except String Config × Except String Config :=
  (mkConfig e1, mkConfig e2)

/-- A single read of one key from the environment state, the only operation
construction performs on the mapping: it returns the value found together with
the mapping as the operation leaves it. -/
def readKey (env : EnvMap) (k : String) : Option String × EnvMap :=
  (env k, env)

/-- Construction with the environment mapping threaded as explicit state
through every operation that touches it, returning the construction result
together with the mapping as it stands when construction ends (successfully or
not).  The source performs exactly three reads and no writes. -/
def mkConfigThreaded (env0 : EnvMap) : Except String Config × EnvMap :=
  let r1 := readKey env0 "HOME"
  match r1.1 with
  | none =>
    (Except.error "HOME is a required variable, but it was not set", r1.2)
  | some rawHome =>
    match asString rawHome with
    | Except.error e => (Except.error e, r1.2)
    | Except.ok home =>
      let r2 := readKey r1.2 "DESTROY_DATABASE"
      match r2.1 with
      | none =>
        (Except.error "DESTROY_DATABASE is a required variable, but it was not set", r2.2)
      | some rawDd =>
        match asBool rawDd with
        | Except.error e => (Except.error e, r2.2)
        | Except.ok dd =>
          let r3 := readKey r2.2 "COUNT"
          match r3.1 with
          | none =>
            (Except.error "COUNT is a required variable, but it was not set", r3.2)
          | some rawCount =>
            match asIntPositive rawCount with
            | Except.error e => (Except.error e, r3.2)
            | Except.ok count =>
              (Except.ok { HOME := home, DESTROY_DATABASE := dd,
                           COUNT := count, frozen := true }, r3.2)

/-- Any successfully constructed `Config` is frozen: `Object.freeze(this)` in
the constructor body runs after every field initializer. -/
theorem mkConfig_ok_frozen (env : EnvMap) (c : Config)
    (h : mkConfig env = Except.ok c) : c.frozen = true := by
  unfold mkConfig at h
  cases hH : requiredVal env "HOME" with
  | error e => simp [hH] at h
  | ok rawHome =>
    simp [hH, asString] at h
    cases hD : requiredVal env "DESTROY_DATABASE" with
    | error e => simp [hD] at h
    | ok rawDd =>
      simp [hD] at h
      cases hB : asBool rawDd with
      | error e => simp [hB] at h
      | ok dd =>
        simp [hB] at h
        cases hC : requiredVal env "COUNT" with
        | error e => simp [hC] at h
        | ok rawCount =>
          simp [hC] at h
          cases hP : asIntPositive rawCount with
          | error e => simp [hP] at h
          | ok count =>
            simp [hP] at h
            rw [Eq.symm h]

/-- C1: constructing from the complete valid mapping `HOME = "/"`,
`DESTROY_DATABASE = "true"`, `COUNT = "1"` succeeds, and the resulting object
has `HOME = "/"` (a string), `DESTROY_DATABASE = true` (a boolean) and
`COUNT = 1` (a number). -/
theorem c1_valid_mapping_parses :
    mkConfig demoEnv =
      Except.ok { HOME := "/", DESTROY_DATABASE := true, COUNT := 1,
                  frozen := true } := by
  decide

/-- C2: after any successful construction, an attempted assignment to any of
the three fields fails rather than writing, and the object observed after the
failed assignment is the one produced at construction, every field
unchanged. -/
theorem c2_frozen_fields_reject_writes (env : EnvMap) (c : Config)
    (h : mkConfig env = Except.ok c) (s : String) (b : Bool) (n : Int) :
    ((setHOME c s).isOk = false ∧ afterSet c (fun x => setHOME x s) = c) ∧
    ((setDESTROY_DATABASE c b).isOk = false ∧
      afterSet c (fun x => setDESTROY_DATABASE x b) = c) ∧
    ((setCOUNT c n).isOk = false ∧ afterSet c (fun x => setCOUNT x n) = c) := by
  have hf := mkConfig_ok_frozen env c h
  simp [setHOME, setDESTROY_DATABASE, setCOUNT, afterSet, hf, Except.isOk, Except.toBool]

/-- Witness for C2 at the test suite's mapping and the object it produces. -/
theorem c2_frozen_fields_reject_writes_witness :
    ((setHOME demoConfig "elsewhere").isOk = false ∧
      afterSet demoConfig (fun x => setHOME x "elsewhere") = demoConfig) ∧
    ((setDESTROY_DATABASE demoConfig false).isOk = false ∧
      afterSet demoConfig (fun x => setDESTROY_DATABASE x false) = demoConfig) ∧
    ((setCOUNT demoConfig 2).isOk = false ∧
      afterSet demoConfig (fun x => setCOUNT x 2) = demoConfig) :=
  c2_frozen_fields_reject_writes demoEnv demoConfig (by decide) "elsewhere"
    false 2

/-- C3: the boolean coercion accepts only the closed set of recognized
literals; for any raw `DESTROY_DATABASE` value outside that set, in an
otherwise valid mapping, construction fails. -/
theorem c3_bool_rejects_unrecognized (s : String)
    (h1 : s ≠ "true") (h2 : s ≠ "false") :
    (mkConfig (envWithDd s)).isOk = false := by
  simp [mkConfig, envWithDd, requiredVal, asString, asBool, h1, h2,
    Except.isOk, Except.toBool]

/-- Witness for C3 at the unrecognized literal `"yes"`. -/
theorem c3_bool_rejects_unrecognized_witness :
    ("yes" ≠ "true") ∧ ("yes" ≠ "false") ∧
      (mkConfig (envWithDd "yes")).isOk = false :=
  ⟨by decide, by decide,
    c3_bool_rejects_unrecognized "yes" (by decide) (by decide)⟩

/-- C4: with the other fields valid, each of the raw `COUNT` values `"abc"`
(not numeric), `"-1"` (negative) and `"0"` (zero, not positive) makes
construction fail. -/
theorem c4_count_rejects_invalid :
    (mkConfig (envWithCount "abc")).isOk = false ∧
    (mkConfig (envWithCount "-1")).isOk = false ∧
    (mkConfig (envWithCount "0")).isOk = false := by
  decide

/-- C5: the raw value `"false"` for `DESTROY_DATABASE`, with the other fields
valid, yields an object whose `DESTROY_DATABASE` field is the boolean
`false`. -/
theorem c5_false_literal_yields_false :
    mkConfig (envWithDd "false") =
      Except.ok { HOME := "/", DESTROY_DATABASE := false, COUNT := 1,
                  frozen := true } := by
  decide

/-- C6: for any mapping from which all three required source keys are absent,
construction fails with an error naming the missing key it hit first. -/
theorem c6_missing_required_fails (env : EnvMap)
    (h1 : env "HOME" = none) (h2 : env "DESTROY_DATABASE" = none)
    (h3 : env "COUNT" = none) :
    mkConfig env =
      Except.error "HOME is a required variable, but it was not set" := by
  simp [mkConfig, requiredVal, h1]

/-- Witness for C6 at the empty mapping. -/
theorem c6_missing_required_fails_witness :
    emptyEnv "HOME" = none ∧ emptyEnv "DESTROY_DATABASE" = none ∧
    emptyEnv "COUNT" = none ∧
    mkConfig emptyEnv =
      Except.error "HOME is a required variable, but it was not set" :=
  ⟨rfl, rfl, rfl, c6_missing_required_fails emptyEnv rfl rfl rfl⟩

/-- C7: constructing with an override mapping consults exactly that mapping:
the result coincides with construction from the override alone, and is the
same whatever the real process environment holds, so a key absent from the
override is treated as absent even when the real environment defines it. -/
theorem c7_override_used_exactly (realEnv otherRealEnv ov : EnvMap) :
    newConfig realEnv (some ov) = mkConfig ov ∧
    newConfig realEnv (some ov) = newConfig otherRealEnv (some ov) :=
  ⟨rfl, rfl⟩

/-- C8: when two constructions are performed together, each result is
determined by its own mapping alone: either result is unchanged under any
change of the other mapping, and each equals the stand-alone construction
from its own mapping. -/
theorem c8_constructions_independent (e1 e1b e2 e2b : EnvMap) :
    (buildTwo e1 e2).1 = (buildTwo e1 e2b).1 ∧
    (buildTwo e1 e2).2 = (buildTwo e1b e2).2 ∧
    (buildTwo e1 e2).1 = mkConfig e1 ∧
    (buildTwo e1 e2).2 = mkConfig e2 :=
  ⟨rfl, rfl, rfl, rfl⟩

/-- C9: threading the environment mapping as explicit state through every
operation construction performs on it, the mapping that remains afterwards is
exactly the mapping construction started from — whether construction succeeds
or fails — and the threaded construction computes the same result as
`mkConfig`. -/
theorem c9_env_not_mutated (env : EnvMap) :
    mkConfigThreaded env = (mkConfig env, env) := by
  unfold mkConfigThreaded mkConfig readKey
  cases hH : env "HOME" with
  | none => simp [requiredVal, hH]
  | some rawHome =>
    simp [requiredVal, hH, asString]
    cases hD : env "DESTROY_DATABASE" with
    | none => simp [requiredVal, hD]
    | some rawDd =>
      simp [requiredVal, hD]
      cases hB : asBool rawDd with
      | error e => simp [hB]
      | ok dd =>
        simp [hB]
        cases hC : env "COUNT" with
        | none => simp [requiredVal, hC]
        | some rawCount =>
          simp [requiredVal, hC]
          cases hP : asIntPositive rawCount with
          | error e => simp [hP]
          | ok count => simp [hP]
